import Mathlib

/-!
Shallow embedding of the workshop-websocket-server core: the tunnel
registry (a JS Map from session token to observer connection), the
credential-exchange protocol over an observer connection, and the
ConversationRelay engine (conversation-handler.js).  Connections are
identified by natural numbers; their readyState is an external function.
-/

namespace WS

/-- JS truthiness of an optional string value: null, undefined and the
empty string are falsy. -/
def jsTruthy : Option String → Bool
  | none => false
  | some s => s != ""

/-- JS `a || b` on an optional string: the stored value when truthy,
otherwise the default. -/
def jsOr (s : Option String) (dflt : String) : String :=
  match s with
  | none => dflt
  | some v => if v == "" then dflt else v

/-! ### Tunnel Registry: the JS Map `activeTunnels` (token to connection id) -/

/-- `Map.set`: replaces the value of an existing key in place, otherwise
appends a new entry. -/
def mapSet (m : List (String × Nat)) (k : String) (v : Nat) : List (String × Nat) :=
  match m with
  | [] => [(k, v)]
  | (k1, v1) :: rest => if k1 = k then (k, v) :: rest else (k1, v1) :: mapSet rest k v

/-- `Map.get`: the value of the first entry with the key, if any. -/
def mapGet (m : List (String × Nat)) (k : String) : Option Nat :=
  match m with
  | [] => none
  | (k1, v1) :: rest => if k1 = k then some v1 else mapGet rest k

/-- `Map.delete`: removes the first entry with the key. -/
def mapDelete (m : List (String × Nat)) (k : String) : List (String × Nat) :=
  match m with
  | [] => []
  | (k1, v1) :: rest => if k1 = k then rest else (k1, v1) :: mapDelete rest k

/-- How many entries of the map carry the key. -/
def countKey (m : List (String × Nat)) (k : String) : Nat :=
  (m.filter (fun p => p.1 == k)).length

/-- The observer (tunnel) close handler installed at registration time:
on close of the connection whose handler was registered with
`sessionToken`, the server runs `activeTunnels.delete(sessionToken)`.
The closing connection itself is not consulted. -/
def tunnelCloseHandler (reg : List (String × Nat)) (sessionToken : String)
    (closingConn : Nat) : List (String × Nat) :=
  mapDelete reg sessionToken

/-- The connections a `sendTunnelEvent` call would transmit to: the
registered connection for the token when it exists and its readyState is
1 (OPEN), nothing otherwise. -/
def sendTunnelEventTargets (reg : List (String × Nat)) (readyState : Nat → Nat)
    (sessionToken : String) : List Nat :=
  match mapGet reg sessionToken with
  | none => []
  | some c => if readyState c == 1 then [c] else []

/-- One registry mutation: a tunnel registration (`activeTunnels.set`)
or the firing of a registered close handler. -/
inductive RegOp
  | register (t : String) (c : Nat)
  | closeOf (t : String) (c : Nat)

/-- Apply one registry mutation. -/
def applyRegOp (m : List (String × Nat)) : RegOp → List (String × Nat)
  | RegOp.register t c => mapSet m t c
  | RegOp.closeOf t c => tunnelCloseHandler m t c

/-- The registry reached from the empty map by a sequence of mutations. -/
def runRegOps (ops : List RegOp) : List (String × Nat) :=
  ops.foldl applyRegOp []

/-! ### Credential Exchange Protocol (requestCredentialsThroughTunnel) -/

/-- A parsed inbound message on the observer connection. -/
structure TunnelInMsg where
  type : String
  requestId : Option String
  openaiApiKey : Option String
deriving DecidableEq

deriving instance DecidableEq for Except

/-- The per-request listener/timer state of one credential exchange:
whether the message listener is still attached, whether the timeout is
still armed, and the settled outcome of the promise, if any
(`Except.ok` carries the resolved key, `Except.error` the timeout
rejection message). -/
structure ExchangeState where
  listenerAttached : Bool
  timerActive : Bool
  outcome : Option (Except String (Option String))
deriving DecidableEq

/-- The state right after the listener is attached and the timeout armed. -/
def exchangeInit : ExchangeState :=
  { listenerAttached := true, timerActive := true, outcome := none }

/-- An event delivered to one pending exchange: an inbound observer
message (none when its JSON does not parse) or the timeout firing. -/
inductive ExchangeEvent
  | message (raw : Option TunnelInMsg)
  | timerFire

/-- The fixed credential-request timeout: 10000 milliseconds. -/
def credentialTimeoutMs : Nat := 10000

/-- The rejection message of a timed-out credential request. -/
def timeoutErrorMessage : String :=
  "Credential request timeout - browser may be closed"

/-- Whether an inbound observer message is the matching response for the
pending request: it parsed, has type credential_response, and carries
the pending request identifier. -/
def matchesRequest (requestId : String) : Option TunnelInMsg → Bool
  | none => false
  | some d => d.type == "credential_response" && d.requestId == some requestId

/-- One step of the pending exchange, following the messageHandler and
the setTimeout callback: a matching parsed message, while the listener
is attached, clears the timeout, removes the listener and resolves with
the carried key; any other message (parse failure, other type, absent or
different requestId) changes nothing; the timeout, if still armed,
removes the listener and rejects. -/
def exchangeStep (requestId : String) (s : ExchangeState) :
    ExchangeEvent → ExchangeState
  | ExchangeEvent.message raw =>
    if s.listenerAttached then
      match raw with
      | some d =>
        if d.type == "credential_response" && d.requestId == some requestId then
          { listenerAttached := false, timerActive := false,
            outcome := some (Except.ok d.openaiApiKey) }
        else s
      | none => s
    else s
  | ExchangeEvent.timerFire =>
    if s.timerActive then
      { listenerAttached := false, timerActive := false,
        outcome := some (Except.error timeoutErrorMessage) }
    else s

/-- The events one exchange sees, given the timed inbound messages on
the observer connection: messages arriving strictly before the 10000 ms
deadline, then the timer (a no-op when already cleared), then the late
messages. -/
def scheduleExchangeEvents (timedMsgs : List (Nat × Option TunnelInMsg)) :
    List ExchangeEvent :=
  ((timedMsgs.filter (fun p => decide (p.1 < credentialTimeoutMs))).map
      (fun p => ExchangeEvent.message p.2))
    ++ [ExchangeEvent.timerFire]
    ++ ((timedMsgs.filter (fun p => decide (credentialTimeoutMs ≤ p.1))).map
      (fun p => ExchangeEvent.message p.2))

/-- The final exchange state after processing every event. -/
def runExchange (requestId : String) (timedMsgs : List (Nat × Option TunnelInMsg)) :
    ExchangeState :=
  (scheduleExchangeEvents timedMsgs).foldl (exchangeStep requestId) exchangeInit

/-- requestCredentialsThroughTunnel: looks up the observer connection
for the token; when absent or not OPEN, fulfills with null at once and
transmits nothing.  Otherwise it attaches the listener, arms the
timeout, transmits one credential_request frame carrying the generated
request identifier, and settles per the exchange semantics.  The result
pairs the settled promise with the list of (connection, requestId)
frames sent. -/
def requestCredentialsThroughTunnel (reg : List (String × Nat))
    (readyState : Nat → Nat) (requestId : String) (sessionToken : String)
    (timedMsgs : List (Nat × Option TunnelInMsg)) :
    Except String (Option String) × List (Nat × String) :=
  match mapGet reg sessionToken with
  | none => (Except.ok none, [])
  | some c =>
    if readyState c != 1 then (Except.ok none, [])
    else
      match (runExchange requestId timedMsgs).outcome with
      | some r => (r, [(c, requestId)])
      | none => (Except.error timeoutErrorMessage, [(c, requestId)])

/-! ### ConversationRelay engine (conversation-handler.js) -/

/-- A conversation turn role. -/
inductive Role
  | system
  | user
  | assistant
  | tool
deriving DecidableEq

/-- One tool invocation requested by the model. -/
structure ToolCall where
  id : String
  name : String
  arguments : String
deriving DecidableEq

/-- An opaque tool definition from the tenant configuration (the handler
only counts them and passes them through). -/
abbrev ToolDef := String

/-- One message of the conversation: role, content (null for a
tool-invocation message), the tool-invocation list when present, and the
correlation id of a tool-result message. -/
structure ChatTurn where
  role : Role
  content : Option String
  tool_calls : Option (List ToolCall)
  tool_call_id : Option String
deriving DecidableEq

/-- The user turn appended for a prompt event. -/
def userTurn (voicePrompt : String) : ChatTurn :=
  { role := Role.user, content := some voicePrompt,
    tool_calls := none, tool_call_id := none }

/-- The studentConfig record built from the settings response. -/
structure StudentConfig where
  student_name : Option String
  openai_api_key : Option String
  system_prompt : Option String
  tools : List ToolDef
deriving DecidableEq

/-- The built-in default system prompt of the handler. -/
def defaultPrompt : String :=
  "You are a helpful assistant.\n\n# Voice Conversation Guidelines\n- Keep responses BRIEF (1-2 sentences max)\n- Be conversational and natural\n- Avoid lists, bullet points, or structured formatting\n- Don't say \"as an AI\" or mention you're artificial\n- If you don't know something, say so briefly\n- Respond quickly - every second matters in voice\n- Use casual language, contractions, and natural speech patterns\n\n# Response Style\n- Short and direct\n- Friendly but professional\n- Natural and human-like"

/-- The fixed apology sent to the call connection when a model call fails. -/
def apologyText : String :=
  "I apologize, I encountered an error processing your request."

/-- The parameters of one chat-completion call.  The sampling
temperature is the literal 0.7, recorded in tenths. -/
structure CompletionParams where
  model : String
  messages : List ChatTurn
  max_tokens : Nat
  temperatureTenths : Nat
  tools : Option (List ToolDef)
  tool_choice : Option String
deriving DecidableEq

/-- The message object of a model response. -/
structure ModelMessage where
  content : Option String
  tool_calls : Option (List ToolCall)
deriving DecidableEq

/-- Token-usage figures of a completion. -/
structure Usage where
  prompt_tokens : Nat
  completion_tokens : Nat
  total_tokens : Nat
deriving DecidableEq

/-- The outcome of one chat-completion call: a response, or a thrown
error with its message. -/
inductive ModelResult
  | ok (message : ModelMessage) (usage : Usage)
  | err (message : String)

/-- An event mirrored to the observer through sendTunnelEvent.  The
token_usage payload also carries a derived floating-point cost estimate
in the source; being float arithmetic it is not embedded here, and no
claim depends on it. -/
inductive TunnelEvent
  | call_setup (callSid sessionId fromA toA direction studentName : Option String)
  | user_spoke (transcript : String) (callSid : Option String)
  | token_usage (promptTokens completionTokens totalTokens : Nat)
  | tool_call_start (toolName arguments id : String)
  | tool_call_result (toolName id result : String)
  | ai_response (text : Option String) (afterTools : Bool) (tokensUsed : Nat)
  | dtmf_pressed (digit : String)
  | interrupted (utteranceUntilInterrupt : String)
  | call_ended (callSid : Option String) (duration : Nat) (fromA toA : Option String)
  | error (message : String) (errType : String)
deriving DecidableEq

/-- An outbound frame on the call connection; its type field is the
constant text. -/
structure OutText where
  token : Option String
  last : Bool
deriving DecidableEq

/-- The leading system turn of the first completion of a prompt event:
the tenant system prompt when truthy, otherwise the built-in default. -/
def systemTurnFirst (cfg : StudentConfig) : ChatTurn :=
  { role := Role.system, content := some (jsOr cfg.system_prompt defaultPrompt),
    tool_calls := none, tool_call_id := none }

/-- The leading system turn of the completion issued after tool
execution: the tenant system prompt field as it stands, with no default
fallback. -/
def systemTurnSecond (cfg : StudentConfig) : ChatTurn :=
  { role := Role.system, content := cfg.system_prompt,
    tool_calls := none, tool_call_id := none }

/-- The parameters of the first completion of a prompt event: the system
turn and the full history, a 150-token cap, temperature 0.7, and the
tenant tool list with tool_choice auto when at least one tool is
declared. -/
def firstCompletionParams (cfg : StudentConfig) (hist1 : List ChatTurn) :
    CompletionParams :=
  { model := "gpt-4o-mini"
    messages := systemTurnFirst cfg :: hist1
    max_tokens := 150
    temperatureTenths := 7
    tools := if 0 < cfg.tools.length then some cfg.tools else none
    tool_choice := if 0 < cfg.tools.length then some "auto" else none }

/-- The parameters of the completion issued after tool execution: no
tools and no tool_choice are attached. -/
def secondCompletionParams (cfg : StudentConfig) (hist3 : List ChatTurn) :
    CompletionParams :=
  { model := "gpt-4o-mini"
    messages := systemTurnSecond cfg :: hist3
    max_tokens := 150
    temperatureTenths := 7
    tools := none
    tool_choice := none }

/-- The model response message as appended to history when it carries
tool invocations. -/
def assistantToolTurn (msg : ModelMessage) : ChatTurn :=
  { role := Role.assistant, content := msg.content,
    tool_calls := msg.tool_calls, tool_call_id := none }

/-- The tool-result turn for one invocation: role tool, the serialized
result of the external tool execution, correlated to the invocation id.
`execTool` stands for executeToolCall composed with JSON serialization
of its result. -/
def toolResultTurn (execTool : String → String → String) (tc : ToolCall) : ChatTurn :=
  { role := Role.tool, content := some (execTool tc.name tc.arguments),
    tool_calls := none, tool_call_id := some tc.id }

/-- The history after the tool branch ran: the prior history, the model
message carrying the invocations, then one tool-result turn per
invocation in order. -/
def historyAfterTools (hist1 : List ChatTurn) (msg : ModelMessage)
    (execTool : String → String → String) : List ChatTurn :=
  hist1 ++ assistantToolTurn msg :: (msg.tool_calls.getD []).map (toolResultTurn execTool)

/-- The plain assistant turn appended for a final text answer. -/
def assistantTextTurn (text : Option String) : ChatTurn :=
  { role := Role.assistant, content := text,
    tool_calls := none, tool_call_id := none }

/-- Everything one prompt event produced: the updated conversation
history, the frames sent on the call connection, the events mirrored to
the observer, the completion calls issued in order, and whether the
handler closed the call connection. -/
structure PromptOutcome where
  history : List ChatTurn
  callMessages : List OutText
  tunnelEvents : List TunnelEvent
  modelCalls : List CompletionParams
  closed : Bool
deriving DecidableEq

/-- The prompt branch of the message handler.  It mirrors user_spoke,
appends the user turn, issues the first completion; on a thrown error it
mirrors an error event and answers the fixed apology; on a response
carrying a tool_calls field it mirrors a start event per invocation,
appends the model message then one correlated tool turn per invocation,
issues exactly one more completion and answers its text content; on a
plain response it answers the text content directly. -/
def handlePrompt (cfg : StudentConfig) (hist : List ChatTurn)
    (callSid : Option String) (voicePrompt : String)
    (model : CompletionParams → ModelResult)
    (execTool : String → String → String) : PromptOutcome :=
  let ev0 : List TunnelEvent := [TunnelEvent.user_spoke voicePrompt callSid]
  let hist1 := hist ++ [userTurn voicePrompt]
  let p1 := firstCompletionParams cfg hist1
  match model p1 with
  | ModelResult.err m =>
    { history := hist1
      callMessages := [{ token := some apologyText, last := true }]
      tunnelEvents := ev0 ++ [TunnelEvent.error m "openai_error"]
      modelCalls := [p1]
      closed := false }
  | ModelResult.ok msg usage =>
    let evU := ev0 ++ [TunnelEvent.token_usage usage.prompt_tokens
      usage.completion_tokens usage.total_tokens]
    match msg.tool_calls with
    | none =>
      { history := hist1 ++ [assistantTextTurn msg.content]
        callMessages := [{ token := msg.content, last := true }]
        tunnelEvents := evU ++ [TunnelEvent.ai_response msg.content false usage.total_tokens]
        modelCalls := [p1]
        closed := false }
    | some tcs =>
      let starts := tcs.map (fun tc => TunnelEvent.tool_call_start tc.name tc.arguments tc.id)
      let results := tcs.map (fun tc =>
        TunnelEvent.tool_call_result tc.name tc.id (execTool tc.name tc.arguments))
      let hist3 := historyAfterTools hist1 msg execTool
      let p2 := secondCompletionParams cfg hist3
      match model p2 with
      | ModelResult.err m2 =>
        { history := hist3
          callMessages := [{ token := some apologyText, last := true }]
          tunnelEvents := evU ++ starts ++ results ++ [TunnelEvent.error m2 "openai_error"]
          modelCalls := [p1, p2]
          closed := false }
      | ModelResult.ok msg2 usage2 =>
        { history := hist3 ++ [assistantTextTurn msg2.content]
          callMessages := [{ token := msg2.content, last := true }]
          tunnelEvents := evU ++ starts ++ results
            ++ [TunnelEvent.ai_response msg2.content true usage2.total_tokens]
          modelCalls := [p1, p2]
          closed := false }

/-! ### Session state, secret resolution and the message dispatcher -/

/-- The per-call metadata record, populated incrementally from events. -/
structure CallMetadata where
  sessionToken : String
  studentName : Option String
  fromAddr : Option String
  toAddr : Option String
  direction : Option String
  callSid : Option String
  sessionId : Option String
  startTime : Nat
deriving DecidableEq

/-- One call connection session: the key the handler resolved once at
start, the append-only conversation history, and the call metadata. -/
structure SessionState where
  resolvedApiKey : Option String
  history : List ChatTurn
  meta : CallMetadata
deriving DecidableEq

/-- What one awaited requestCredentialsFn call would do: fulfill with a
key or with null, or reject (timeout). -/
inductive TunnelAttemptResult
  | fulfilled (key : Option String)
  | rejected (err : String)

/-- The key resolution at the top of handleConversationRelay: take the
stored tenant key; when it is falsy and a credential function was
passed, await it, keeping the prior value when it rejects; when the
result is still falsy, fall back to the server environment key. -/
def resolveApiKey (storedKey : Option String) (fnPresent : Bool)
    (attempt : TunnelAttemptResult) (envKey : Option String) : Option String :=
  let k1 := storedKey
  let k2 :=
    if !jsTruthy k1 && fnPresent then
      match attempt with
      | TunnelAttemptResult.fulfilled k => k
      | TunnelAttemptResult.rejected _ => k1
    else k1
  if jsTruthy k2 then k2 else envKey

/-- The session created when a call connection is accepted: the key is
resolved once here, the history starts empty, metadata holds the token,
the tenant display name and the start timestamp. -/
def initSession (cfg : StudentConfig) (sessionToken : String) (fnPresent : Bool)
    (attempt : TunnelAttemptResult) (envKey : Option String) (now : Nat) :
    SessionState :=
  { resolvedApiKey := resolveApiKey cfg.openai_api_key fnPresent attempt envKey
    history := []
    meta :=
      { sessionToken := sessionToken
        studentName := cfg.student_name
        fromAddr := none
        toAddr := none
        direction := none
        callSid := none
        sessionId := none
        startTime := now } }

/-- A parsed inbound call-channel event. -/
inductive CallEvent
  | setup (sessionId callSid fromA toA direction : Option String)
  | prompt (voicePrompt : String)
  | dtmf (digit : String)
  | interrupt (utteranceUntilInterrupt : String)
  | unknown (ty : String)

/-- What processing one inbound call-channel message produced. -/
structure StepResult where
  state : SessionState
  callMessages : List OutText
  tunnelEvents : List TunnelEvent
  modelCalls : List CompletionParams
  closed : Bool
deriving DecidableEq

/-- The message handler of the call connection.  The raw frame is none
when JSON.parse threw: the catch only logs, so nothing changes and
nothing is sent.  setup records metadata and mirrors call_setup; prompt
runs the turn-resolution branch; dtmf and interrupt only mirror; an
unrecognized type only logs.  No branch closes the connection. -/
def handleMessage (cfg : StudentConfig) (st : SessionState)
    (raw : Option CallEvent) (model : CompletionParams → ModelResult)
    (execTool : String → String → String) : StepResult :=
  match raw with
  | none =>
    { state := st, callMessages := [], tunnelEvents := [], modelCalls := [], closed := false }
  | some (CallEvent.setup sessionId callSid fromA toA direction) =>
    { state :=
        { st with meta :=
            { st.meta with
              callSid := callSid
              fromAddr := fromA
              toAddr := toA
              direction := direction
              sessionId := sessionId } }
      callMessages := []
      tunnelEvents := [TunnelEvent.call_setup callSid sessionId fromA toA direction
        cfg.student_name]
      modelCalls := []
      closed := false }
  | some (CallEvent.prompt voicePrompt) =>
    let o := handlePrompt cfg st.history st.meta.callSid voicePrompt model execTool
    { state := { st with history := o.history }
      callMessages := o.callMessages
      tunnelEvents := o.tunnelEvents
      modelCalls := o.modelCalls
      closed := o.closed }
  | some (CallEvent.dtmf digit) =>
    { state := st, callMessages := [], tunnelEvents := [TunnelEvent.dtmf_pressed digit],
      modelCalls := [], closed := false }
  | some (CallEvent.interrupt utt) =>
    { state := st, callMessages := [], tunnelEvents := [TunnelEvent.interrupted utt],
      modelCalls := [], closed := false }
  | some (CallEvent.unknown _) =>
    { state := st, callMessages := [], tunnelEvents := [], modelCalls := [], closed := false }

/-! ### Registry lemmas -/

lemma mapGet_mapSet_self (m : List (String × Nat)) (k : String) (v : Nat) :
    mapGet (mapSet m k v) k = some v := by
  induction m with
  | nil => simp [mapSet, mapGet]
  | cons p rest ih =>
    obtain ⟨k1, v1⟩ := p
    by_cases h : k1 = k
    · simp [mapSet, mapGet, h]
    · simp [mapSet, mapGet, h, ih]

lemma countKey_nil (t : String) : countKey [] t = 0 := rfl

lemma countKey_cons (k1 : String) (v1 : Nat) (l : List (String × Nat)) (t : String) :
    countKey ((k1, v1) :: l) t = (if k1 = t then 1 else 0) + countKey l t := by
  by_cases h : k1 = t
  · simp [countKey, List.filter_cons, h]
    omega
  · simp [countKey, List.filter_cons, h]

lemma mapGet_mapSet_ne (m : List (String × Nat)) (k t : String) (v : Nat)
    (h : t ≠ k) : mapGet (mapSet m k v) t = mapGet m t := by
  induction m with
  | nil => simp [mapSet, mapGet, Ne.symm h]
  | cons p rest ih =>
    obtain ⟨k1, v1⟩ := p
    by_cases hk : k1 = k
    · subst hk
      simp [mapSet, mapGet, Ne.symm h]
    · simp only [mapSet, if_neg hk, mapGet]
      by_cases ht : k1 = t
      · simp [ht]
      · simp [ht, ih]

lemma countKey_mapSet_ne (m : List (String × Nat)) (k t : String) (v : Nat)
    (h : t ≠ k) : countKey (mapSet m k v) t = countKey m t := by
  induction m with
  | nil => simp [mapSet, countKey_cons, countKey_nil, Ne.symm h]
  | cons p rest ih =>
    obtain ⟨k1, v1⟩ := p
    by_cases hk : k1 = k
    · subst hk
      simp [mapSet, countKey_cons]
    · simp [mapSet, hk, countKey_cons, ih]

lemma countKey_mapSet_self_le (m : List (String × Nat)) (k : String) (v : Nat) :
    countKey (mapSet m k v) k ≤ max (countKey m k) 1 := by
  induction m with
  | nil => simp [mapSet, countKey_cons, countKey_nil]
  | cons p rest ih =>
    obtain ⟨k1, v1⟩ := p
    by_cases hk : k1 = k
    · subst hk
      simp [mapSet, countKey_cons]
    · simp only [mapSet, if_neg hk]
      rw [countKey_cons, countKey_cons, if_neg hk]
      omega

lemma countKey_one_preserved_mapSet (m : List (String × Nat)) (k : String) (v : Nat)
    (h : ∀ u, countKey m u ≤ 1) : ∀ t, countKey (mapSet m k v) t ≤ 1 := by
  intro t
  by_cases ht : t = k
  · subst ht
    have h1 := countKey_mapSet_self_le m t v
    have h2 := h t
    omega
  · rw [countKey_mapSet_ne m k t v ht]
    exact h t

lemma countKey_mapDelete_le (m : List (String × Nat)) (k t : String) :
    countKey (mapDelete m k) t ≤ countKey m t := by
  induction m with
  | nil => simp [mapDelete]
  | cons p rest ih =>
    obtain ⟨k1, v1⟩ := p
    by_cases hk : k1 = k
    · subst hk
      simp [mapDelete]
      rw [countKey_cons]
      omega
    · simp only [mapDelete, if_neg hk]
      rw [countKey_cons, countKey_cons]
      omega

lemma mapGet_eq_none_of_countKey_zero (m : List (String × Nat)) (k : String)
    (h : countKey m k = 0) : mapGet m k = none := by
  induction m with
  | nil => simp [mapGet]
  | cons p rest ih =>
    obtain ⟨k1, v1⟩ := p
    rw [countKey_cons] at h
    by_cases hk : k1 = k
    · rw [if_pos hk] at h
      omega
    · rw [if_neg hk] at h
      simp only [mapGet, if_neg hk]
      exact ih (by omega)

lemma mapGet_mapDelete_self (m : List (String × Nat)) (k : String)
    (h : countKey m k ≤ 1) : mapGet (mapDelete m k) k = none := by
  induction m with
  | nil => simp [mapDelete, mapGet]
  | cons p rest ih =>
    obtain ⟨k1, v1⟩ := p
    rw [countKey_cons] at h
    by_cases hk : k1 = k
    · rw [if_pos hk] at h
      simp only [mapDelete, if_pos hk]
      exact mapGet_eq_none_of_countKey_zero rest k (by omega)
    · rw [if_neg hk] at h
      simp only [mapDelete, if_neg hk, mapGet]
      exact ih (by omega)

lemma countKey_runRegOps_aux (ops : List RegOp) (m : List (String × Nat))
    (h : ∀ u, countKey m u ≤ 1) : ∀ t, countKey (ops.foldl applyRegOp m) t ≤ 1 := by
  induction ops generalizing m with
  | nil => exact h
  | cons op rest ih =>
    intro t
    apply ih
    intro u
    cases op with
    | register t0 c0 => exact countKey_one_preserved_mapSet m t0 c0 h u
    | closeOf t0 c0 =>
      calc countKey (applyRegOp m (RegOp.closeOf t0 c0)) u
          ≤ countKey m u := countKey_mapDelete_le m t0 u
        _ ≤ 1 := h u

/-- Claim C9: the Tunnel Registry holds at most one live entry per
session token; registering an observer connection for a token that
already has one replaces the earlier entry, and a subsequent send for
that token targets only the most recently registered connection. -/
theorem tunnel_registry_single_entry (reg : List (String × Nat)) (t : String)
    (c1 c2 : Nat) (readyState : Nat → Nat) :
    mapGet (mapSet (mapSet reg t c1) t c2) t = some c2 ∧
    sendTunnelEventTargets (mapSet (mapSet reg t c1) t c2) readyState t
      = (if readyState c2 == 1 then [c2] else []) ∧
    (∀ ops : List RegOp, ∀ u, countKey (runRegOps ops) u ≤ 1) := by
  refine ⟨mapGet_mapSet_self _ t c2, ?_, ?_⟩
  · rw [sendTunnelEventTargets, mapGet_mapSet_self _ t c2]
  · intro ops u
    exact countKey_runRegOps_aux ops [] (by intro u0; simp [countKey, List.filter]) u

/-- Claim C1 counterexample: with connection 1 registered for token tok
and then replaced by connection 2, the close handler of the stale
connection 1 still removes the entry, leaving no registration for tok
although connection 2 was the currently registered one.  The claimed
identity-equality guard does not exist in the close handler. -/
theorem unregister_identity_guard_counterexample :
    mapGet (mapSet (mapSet ([] : List (String × Nat)) "tok" 1) "tok" 2) "tok" = some 2 ∧
    mapGet (tunnelCloseHandler (mapSet (mapSet ([] : List (String × Nat)) "tok" 1) "tok" 2)
      "tok" 1) "tok" = none := by
  constructor
  · rfl
  · rfl

/-- Claim C1 amended: the close handler registered for an observer
connection removes the registry entry of its session token
unconditionally; whenever some connection is registered for the token
(in particular a newer one, different from the closing connection), the
stale close leaves the token with no registered observer. -/
theorem tunnel_close_removes_entry_unconditionally (reg : List (String × Nat))
    (t : String) (cStale cNew : Nat) (hcount : countKey reg t ≤ 1)
    (hcur : mapGet reg t = some cNew) :
    mapGet (tunnelCloseHandler reg t cStale) t = none := by
  rw [tunnelCloseHandler]
  exact mapGet_mapDelete_self reg t hcount

/-- Witness for the amended C1 theorem at the concrete two-registration
scenario. -/
theorem tunnel_close_removes_entry_unconditionally_witness :
    mapGet (tunnelCloseHandler (mapSet (mapSet ([] : List (String × Nat)) "tok" 1) "tok" 2)
      "tok" 1) "tok" = none :=
  tunnel_close_removes_entry_unconditionally _ "tok" 1 2 (by decide) (by decide)

/-! ### Credential-exchange lemmas -/

/-- The states a credential exchange can be in: untouched, or settled
with both the listener removed and the timer cleared. -/
def ExchangeSettledOrInit (s : ExchangeState) : Prop :=
  s = exchangeInit ∨ ∃ r, s = ⟨false, false, some r⟩

lemma exchangeStep_settled (requestId : String) (r : Except String (Option String))
    (e : ExchangeEvent) :
    exchangeStep requestId ⟨false, false, some r⟩ e = ⟨false, false, some r⟩ := by
  cases e with
  | message raw => simp [exchangeStep]
  | timerFire => simp [exchangeStep]

lemma foldl_exchangeStep_settled (requestId : String) (r : Except String (Option String))
    (l : List ExchangeEvent) :
    List.foldl (exchangeStep requestId) ⟨false, false, some r⟩ l = ⟨false, false, some r⟩ := by
  induction l with
  | nil => rfl
  | cons e rest ih => rw [List.foldl_cons, exchangeStep_settled, ih]

lemma exchangeStep_nonmatching (requestId : String) (s : ExchangeState)
    (raw : Option TunnelInMsg) (h : matchesRequest requestId raw = false) :
    exchangeStep requestId s (ExchangeEvent.message raw) = s := by
  cases raw with
  | none => simp [exchangeStep]
  | some d =>
    simp only [matchesRequest] at h
    simp [exchangeStep, h]

lemma exchangeStep_inv (requestId : String) (s : ExchangeState) (e : ExchangeEvent)
    (h : ExchangeSettledOrInit s) : ExchangeSettledOrInit (exchangeStep requestId s e) := by
  rcases h with h | ⟨r, h⟩
  · subst h
    cases e with
    | message raw =>
      cases raw with
      | none => left; simp [exchangeStep]
      | some d =>
        by_cases hc : (d.type == "credential_response" && d.requestId == some requestId) = true
        · right
          exact ⟨Except.ok d.openaiApiKey, by simp [exchangeStep, exchangeInit, hc]⟩
        · left
          simp only [Bool.not_eq_true] at hc
          simp [exchangeStep, exchangeInit, hc]
    | timerFire =>
      right
      exact ⟨Except.error timeoutErrorMessage, by simp [exchangeStep, exchangeInit]⟩
  · subst h
    right
    exact ⟨r, exchangeStep_settled requestId r e⟩

lemma foldl_exchangeStep_inv (requestId : String) (l : List ExchangeEvent)
    (s : ExchangeState) (h : ExchangeSettledOrInit s) :
    ExchangeSettledOrInit (List.foldl (exchangeStep requestId) s l) := by
  induction l generalizing s with
  | nil => exact h
  | cons e rest ih => exact ih _ (exchangeStep_inv requestId s e h)

lemma foldl_exchangeStep_nonmatching (requestId : String) (l : List ExchangeEvent)
    (s : ExchangeState)
    (h : ∀ ev ∈ l, ∃ raw, ev = ExchangeEvent.message raw ∧
      matchesRequest requestId raw = false) :
    List.foldl (exchangeStep requestId) s l = s := by
  induction l with
  | nil => rfl
  | cons e rest ih =>
    obtain ⟨raw, hev, hm⟩ := h e (List.mem_cons_self e rest)
    subst hev
    rw [List.foldl_cons, exchangeStep_nonmatching requestId s raw hm]
    exact ih (fun ev hev2 => h ev (List.mem_cons_of_mem _ hev2))

lemma runExchange_outcome_ne_none (requestId : String)
    (timedMsgs : List (Nat × Option TunnelInMsg)) :
    (runExchange requestId timedMsgs).outcome ≠ none := by
  rw [runExchange, scheduleExchangeEvents, List.foldl_append]
  have h1 : ExchangeSettledOrInit
      (List.foldl (exchangeStep requestId) exchangeInit
        ((timedMsgs.filter (fun p => decide (p.1 < credentialTimeoutMs))).map
          (fun p => ExchangeEvent.message p.2))) :=
    foldl_exchangeStep_inv requestId _ exchangeInit (Or.inl rfl)
  rw [List.foldl_append]
  rcases h1 with h1 | ⟨r, h1⟩ <;> rw [h1]
  · rw [show List.foldl (exchangeStep requestId) exchangeInit [ExchangeEvent.timerFire]
        = ⟨false, false, some (Except.error timeoutErrorMessage)⟩ from rfl]
    rw [foldl_exchangeStep_settled]
    simp
  · rw [show List.foldl (exchangeStep requestId) ⟨false, false, some r⟩ [ExchangeEvent.timerFire]
        = ⟨false, false, some r⟩ from by
      simp [List.foldl_cons, exchangeStep_settled]]
    rw [foldl_exchangeStep_settled]
    simp

lemma runExchange_timeout (requestId : String)
    (timedMsgs : List (Nat × Option TunnelInMsg))
    (h : ∀ p ∈ timedMsgs, p.1 < credentialTimeoutMs →
      matchesRequest requestId p.2 = false) :
    (runExchange requestId timedMsgs).outcome
      = some (Except.error timeoutErrorMessage) := by
  rw [runExchange, scheduleExchangeEvents, List.foldl_append, List.foldl_append]
  rw [foldl_exchangeStep_nonmatching requestId _ exchangeInit ?early]
  case early =>
    intro ev hev
    obtain ⟨p, hp, hfp⟩ := List.mem_map.mp hev
    obtain ⟨hpm, hpt⟩ := List.mem_filter.mp hp
    exact ⟨p.2, hfp.symm, h p hpm (of_decide_eq_true hpt)⟩
  rw [show List.foldl (exchangeStep requestId) exchangeInit [ExchangeEvent.timerFire]
      = ⟨false, false, some (Except.error timeoutErrorMessage)⟩ from rfl]
  rw [foldl_exchangeStep_settled]

/-- Claim C2: a credential exchange for request identifier r resolves
exactly once.  A credential_response carrying r, received while the
listener is attached, resolves with the carried secret, cancelling the
timeout and removing the listener; a message that does not match
(unparseable, other type, absent or different requestId) never changes
the exchange; when no matching response arrives before the fixed
10000 ms deadline, the exchange settles as a timeout failure even if a
matching response arrives afterwards; a settled exchange ignores every
further event; and every run settles. -/
theorem credential_exchange_single_resolution (requestId : String) :
    (∀ (tAct : Bool) (out : Option (Except String (Option String))) (key : Option String),
      exchangeStep requestId ⟨true, tAct, out⟩
        (ExchangeEvent.message (some ⟨"credential_response", some requestId, key⟩))
        = ⟨false, false, some (Except.ok key)⟩) ∧
    (∀ (s : ExchangeState) (raw : Option TunnelInMsg),
      matchesRequest requestId raw = false →
      exchangeStep requestId s (ExchangeEvent.message raw) = s) ∧
    (∀ timedMsgs : List (Nat × Option TunnelInMsg),
      (∀ p ∈ timedMsgs, p.1 < credentialTimeoutMs →
        matchesRequest requestId p.2 = false) →
      (runExchange requestId timedMsgs).outcome
        = some (Except.error timeoutErrorMessage)) ∧
    (∀ (r : Except String (Option String)) (e : ExchangeEvent),
      exchangeStep requestId ⟨false, false, some r⟩ e = ⟨false, false, some r⟩) ∧
    (∀ timedMsgs : List (Nat × Option TunnelInMsg),
      (runExchange requestId timedMsgs).outcome ≠ none) := by
  refine ⟨?_, ?_, runExchange_timeout requestId, exchangeStep_settled requestId,
    runExchange_outcome_ne_none requestId⟩
  · intro tAct out key
    simp [exchangeStep]
  · exact exchangeStep_nonmatching requestId

/-- Witness for C2 at a concrete request identifier: the empty message
trace times out, and a concrete matching response resolves with its
key. -/
theorem credential_exchange_single_resolution_witness :
    (runExchange "req_1" []).outcome = some (Except.error timeoutErrorMessage) ∧
    exchangeStep "req_1" ⟨true, true, none⟩
      (ExchangeEvent.message (some ⟨"credential_response", some "req_1", some "sk-test"⟩))
      = ⟨false, false, some (Except.ok (some "sk-test"))⟩ :=
  ⟨(credential_exchange_single_resolution "req_1").2.2.1 [] (by simp),
    (credential_exchange_single_resolution "req_1").1 true none (some "sk-test")⟩

/-- Claim C8: a credential exchange invoked while the Tunnel Registry
has no entry for the session token, or an entry whose connection is not
in the open-ready state, fulfills with null immediately and transmits no
credential_request frame. -/
theorem credential_request_unavailable_no_send (reg : List (String × Nat))
    (readyState : Nat → Nat) (requestId sessionToken : String)
    (timedMsgs : List (Nat × Option TunnelInMsg))
    (h : mapGet reg sessionToken = none ∨
      ∃ c, mapGet reg sessionToken = some c ∧ readyState c ≠ 1) :
    requestCredentialsThroughTunnel reg readyState requestId sessionToken timedMsgs
      = (Except.ok none, []) := by
  rcases h with h | ⟨c, hc, hrs⟩
  · simp [requestCredentialsThroughTunnel, h]
  · have hb : (readyState c != 1) = true := by simpa using hrs
    simp [requestCredentialsThroughTunnel, hc, hb]

/-- Witness for C8: the empty registry, and a registry whose connection
is in the connecting state. -/
theorem credential_request_unavailable_no_send_witness :
    requestCredentialsThroughTunnel [] (fun _ => 0) "req_1" "tok" [] = (Except.ok none, []) ∧
    requestCredentialsThroughTunnel [("tok", 5)] (fun _ => 0) "req_1" "tok" []
      = (Except.ok none, []) :=
  ⟨credential_request_unavailable_no_send [] (fun _ => 0) "req_1" "tok" [] (Or.inl rfl),
    credential_request_unavailable_no_send [("tok", 5)] (fun _ => 0) "req_1" "tok" []
      (Or.inr ⟨5, by decide, by decide⟩)⟩

/-! ### Concrete inputs used by counterexamples and witnesses -/

/-- A tenant with one declared tool and no configured system prompt. -/
def cfgNoPrompt : StudentConfig :=
  { student_name := some "Ada", openai_api_key := none,
    system_prompt := none, tools := ["tooldef1"] }

/-- A tenant with no declared tools. -/
def cfgNoTools : StudentConfig :=
  { student_name := some "Ada", openai_api_key := some "sk-db",
    system_prompt := some "Be brief.", tools := [] }

/-- A first concrete tool invocation. -/
def tcOne : ToolCall := { id := "call_1", name := "get_time", arguments := "args1" }

/-- A second concrete tool invocation. -/
def tcTwo : ToolCall := { id := "call_2", name := "get_weather", arguments := "args2" }

/-- A concrete tool executor. -/
def execStub : String → String → String :=
  fun n a => String.append n (String.append ":" a)

/-- A model message requesting one tool invocation. -/
def msgOneTool : ModelMessage := { content := none, tool_calls := some [tcOne] }

/-- A model message requesting two tool invocations. -/
def msgTwoTools : ModelMessage := { content := none, tool_calls := some [tcOne, tcTwo] }

/-- A model oracle that requests one tool on the tool-bearing first call
and answers text on the tool-free second call. -/
def modelToolsThenText : CompletionParams → ModelResult := fun p =>
  match p.tools with
  | some _ => ModelResult.ok msgOneTool
      { prompt_tokens := 1, completion_tokens := 1, total_tokens := 2 }
  | none => ModelResult.ok { content := some "done", tool_calls := none }
      { prompt_tokens := 1, completion_tokens := 1, total_tokens := 2 }

/-- A model oracle that requests two tools on the tool-bearing first
call and answers text on the second. -/
def modelTwoToolsThenText : CompletionParams → ModelResult := fun p =>
  match p.tools with
  | some _ => ModelResult.ok msgTwoTools
      { prompt_tokens := 3, completion_tokens := 4, total_tokens := 7 }
  | none => ModelResult.ok { content := some "done", tool_calls := none }
      { prompt_tokens := 5, completion_tokens := 6, total_tokens := 11 }

/-- A model oracle that requests one tool on the first call and throws
on the tool-free second call. -/
def modelToolsThenErr : CompletionParams → ModelResult := fun p =>
  match p.tools with
  | some _ => ModelResult.ok msgOneTool
      { prompt_tokens := 1, completion_tokens := 1, total_tokens := 2 }
  | none => ModelResult.err "boom"

/-- A model oracle that always throws. -/
def modelAlwaysErr : CompletionParams → ModelResult := fun _ => ModelResult.err "boom"

/-- A model oracle that always answers plain text. -/
def modelPlainText : CompletionParams → ModelResult := fun _ =>
  ModelResult.ok { content := some "hello", tool_calls := none }
    { prompt_tokens := 1, completion_tokens := 1, total_tokens := 2 }

/-! ### Engine theorems -/

/-- Claim C10: an inbound call-channel message that does not parse as
JSON is caught and ignored: the session state (history and call
metadata) is unchanged, nothing is sent on the call connection, nothing
is mirrored, no model call is made, and the call connection stays
open. -/
theorem unparseable_message_ignored (cfg : StudentConfig) (st : SessionState)
    (model : CompletionParams → ModelResult) (execTool : String → String → String) :
    (handleMessage cfg st none model execTool).state = st ∧
    (handleMessage cfg st none model execTool).callMessages = [] ∧
    (handleMessage cfg st none model execTool).tunnelEvents = [] ∧
    (handleMessage cfg st none model execTool).modelCalls = [] ∧
    (handleMessage cfg st none model execTool).closed = false :=
  ⟨rfl, rfl, rfl, rfl, rfl⟩

/-- Claim C7: the secret used for a call is resolved once by preference
order: the stored tenant secret when truthy; otherwise the credential
exchange result when it fulfilled with a truthy secret; otherwise (the
exchange fulfilled null or empty, rejected, or no exchange function was
passed) the server-wide default secret.  The session records the
resolved key at creation and no event processing ever changes it. -/
theorem secret_resolution_order (stored : Option String) (fnPresent : Bool)
    (attempt : TunnelAttemptResult) (envKey : Option String) :
    (jsTruthy stored = true → resolveApiKey stored fnPresent attempt envKey = stored) ∧
    (∀ k, jsTruthy stored = false → fnPresent = true →
      attempt = TunnelAttemptResult.fulfilled k → jsTruthy k = true →
      resolveApiKey stored fnPresent attempt envKey = k) ∧
    (∀ k, jsTruthy stored = false → attempt = TunnelAttemptResult.fulfilled k →
      jsTruthy k = false → resolveApiKey stored fnPresent attempt envKey = envKey) ∧
    (∀ e, jsTruthy stored = false → attempt = TunnelAttemptResult.rejected e →
      resolveApiKey stored fnPresent attempt envKey = envKey) ∧
    (fnPresent = false → jsTruthy stored = false →
      resolveApiKey stored fnPresent attempt envKey = envKey) ∧
    (∀ (cfg : StudentConfig) (st : SessionState) (raw : Option CallEvent)
      (model : CompletionParams → ModelResult) (execTool : String → String → String),
      (handleMessage cfg st raw model execTool).state.resolvedApiKey
        = st.resolvedApiKey) ∧
    (∀ (cfg : StudentConfig) (tok : String) (now : Nat),
      (initSession cfg tok fnPresent attempt envKey now).resolvedApiKey
        = resolveApiKey cfg.openai_api_key fnPresent attempt envKey) := by
  refine ⟨?_, ?_, ?_, ?_, ?_, ?_, fun cfg tok now => rfl⟩
  · intro h
    simp [resolveApiKey, h]
  · intro k h hf ha hk
    subst ha
    simp [resolveApiKey, h, hf, hk]
  · intro k h ha hk
    subst ha
    cases fnPresent <;> simp [resolveApiKey, h, hk]
  · intro e h ha
    subst ha
    cases fnPresent <;> simp [resolveApiKey, h]
  · intro hf h
    simp [resolveApiKey, hf, h]
  · intro cfg st raw model execTool
    cases raw with
    | none => rfl
    | some ev => cases ev <;> rfl

/-- Witness for C7: a stored secret wins, and with no stored secret and
no active observer (exchange fulfilled null) the server default is
used. -/
theorem secret_resolution_order_witness :
    resolveApiKey (some "sk-stored") true (TunnelAttemptResult.fulfilled none)
      (some "sk-env") = some "sk-stored" ∧
    resolveApiKey none true (TunnelAttemptResult.fulfilled none)
      (some "sk-env") = some "sk-env" :=
  ⟨(secret_resolution_order (some "sk-stored") true
      (TunnelAttemptResult.fulfilled none) (some "sk-env")).1 (by decide),
    (secret_resolution_order none true
      (TunnelAttemptResult.fulfilled none) (some "sk-env")).2.2.1 none rfl rfl rfl⟩

set_option maxRecDepth 4000 in
/-- Claim C3 counterexample: with no configured system prompt and a
model response requesting a tool, the re-invocation after tool execution
does not lead with the built-in default instruction text: its system
turn carries the absent tenant prompt as it stands, so the claimed
fallback fails for the second invocation. -/
theorem second_invocation_no_default_counterexample :
    ¬ ∀ p ∈ (handlePrompt cfgNoPrompt [] none "hi" modelToolsThenText execStub).modelCalls,
      p.messages.head?.map ChatTurn.content
        = some (some (jsOr cfgNoPrompt.system_prompt defaultPrompt)) := by
  decide

/-- Claim C3 amended: every model invocation of the turn-resolution
algorithm leads with a system turn followed by the full history at that
point, but the fallback to the built-in default applies only to the
first invocation; the re-invocation after tool execution (the only case
with a second invocation) carries the tenant instruction text exactly as
configured (absent when not configured), with no default fallback,
followed by exactly the full updated history: the prior history, the
user turn, the model tool-invocation turn, then the tool-result turns,
and nothing else. -/
theorem system_turn_per_invocation (cfg : StudentConfig) (hist : List ChatTurn)
    (callSid : Option String) (voicePrompt : String)
    (model : CompletionParams → ModelResult) (execTool : String → String → String) :
    (handlePrompt cfg hist callSid voicePrompt model execTool).modelCalls.head?
      = some (firstCompletionParams cfg (hist ++ [userTurn voicePrompt])) ∧
    (firstCompletionParams cfg (hist ++ [userTurn voicePrompt])).messages
      = systemTurnFirst cfg :: (hist ++ [userTurn voicePrompt]) ∧
    (systemTurnFirst cfg).content = some (jsOr cfg.system_prompt defaultPrompt) ∧
    (∀ m, model (firstCompletionParams cfg (hist ++ [userTurn voicePrompt]))
        = ModelResult.err m →
      (handlePrompt cfg hist callSid voicePrompt model execTool).modelCalls.drop 1
        = []) ∧
    (∀ msg u, model (firstCompletionParams cfg (hist ++ [userTurn voicePrompt]))
        = ModelResult.ok msg u →
      msg.tool_calls = none →
      (handlePrompt cfg hist callSid voicePrompt model execTool).modelCalls.drop 1
        = []) ∧
    (∀ msg u tcs, model (firstCompletionParams cfg (hist ++ [userTurn voicePrompt]))
        = ModelResult.ok msg u →
      msg.tool_calls = some tcs →
      (handlePrompt cfg hist callSid voicePrompt model execTool).modelCalls.drop 1
        = [secondCompletionParams cfg
          (historyAfterTools (hist ++ [userTurn voicePrompt]) msg execTool)] ∧
      (secondCompletionParams cfg
          (historyAfterTools (hist ++ [userTurn voicePrompt]) msg execTool)).messages
        = systemTurnSecond cfg
          :: ((hist ++ [userTurn voicePrompt])
            ++ assistantToolTurn msg :: tcs.map (toolResultTurn execTool))) ∧
    (systemTurnSecond cfg).content = cfg.system_prompt := by
  refine ⟨?_, rfl, rfl, ?_, ?_, ?_, rfl⟩
  · cases hm : model (firstCompletionParams cfg (hist ++ [userTurn voicePrompt])) with
    | err m => simp [handlePrompt, hm]
    | ok msg u =>
      cases htc : msg.tool_calls with
      | none => simp [handlePrompt, hm, htc]
      | some tcs =>
        cases hm2 : model (secondCompletionParams cfg
            (historyAfterTools (hist ++ [userTurn voicePrompt]) msg execTool)) with
        | err m2 => simp [handlePrompt, hm, htc, hm2]
        | ok msg2 u2 => simp [handlePrompt, hm, htc, hm2]
  · intro m hm
    simp [handlePrompt, hm]
  · intro msg u hm htc
    simp [handlePrompt, hm, htc]
  · intro msg u tcs hm htc
    refine ⟨?_, by simp [secondCompletionParams, historyAfterTools, htc]⟩
    cases hm2 : model (secondCompletionParams cfg
        (historyAfterTools (hist ++ [userTurn voicePrompt]) msg execTool)) with
    | err m2 => simp [handlePrompt, hm, htc, hm2]
    | ok msg2 u2 => simp [handlePrompt, hm, htc, hm2]

/-- Witness for the amended C3 theorem at a concrete tool-requesting
run. -/
theorem system_turn_per_invocation_witness :
    (handlePrompt cfgNoPrompt [] none "hi" modelToolsThenText execStub).modelCalls.head?
      = some (firstCompletionParams cfgNoPrompt ([] ++ [userTurn "hi"])) :=
  (system_turn_per_invocation cfgNoPrompt [] none "hi" modelToolsThenText execStub).1

/-- Claim C4 counterexample: when the post-tool re-invocation throws,
the call connection does receive exactly one apology text and an error
event is mirrored, but the conversation history (empty before the
prompt) now holds an assistant turn: the tool-invocation message
appended before the failure.  The claimed "appends no assistant turn"
fails. -/
theorem model_error_assistant_turn_counterexample :
    (handlePrompt cfgNoPrompt [] none "hi" modelToolsThenErr execStub).callMessages
      = [{ token := some apologyText, last := true }] ∧
    TunnelEvent.error "boom" "openai_error"
      ∈ (handlePrompt cfgNoPrompt [] none "hi" modelToolsThenErr execStub).tunnelEvents ∧
    (handlePrompt cfgNoPrompt [] none "hi" modelToolsThenErr execStub).closed = false ∧
    ¬ ∀ t ∈ (handlePrompt cfgNoPrompt [] none "hi" modelToolsThenErr execStub).history,
        t.role ≠ Role.assistant := by
  refine ⟨by decide, by decide, by decide, by decide⟩

/-- Claim C4 amended: any model-call error is caught; the observer is
mirrored an error event, the call connection receives exactly one text
frame carrying the fixed apology, and the connection is not closed.
When the first invocation throws, no assistant turn is appended (the
history gains only the user turn); when the post-tool re-invocation
throws, the history is exactly the turns appended before the failure
(the model tool-invocation turn and the tool-result turns) and the
error handling appends nothing further. -/
theorem model_error_apology_policy (cfg : StudentConfig) (hist : List ChatTurn)
    (callSid : Option String) (voicePrompt : String)
    (model : CompletionParams → ModelResult) (execTool : String → String → String) :
    (∀ m, model (firstCompletionParams cfg (hist ++ [userTurn voicePrompt]))
        = ModelResult.err m →
      (handlePrompt cfg hist callSid voicePrompt model execTool).history
        = hist ++ [userTurn voicePrompt] ∧
      (handlePrompt cfg hist callSid voicePrompt model execTool).callMessages
        = [{ token := some apologyText, last := true }] ∧
      (handlePrompt cfg hist callSid voicePrompt model execTool).tunnelEvents
        = [TunnelEvent.user_spoke voicePrompt callSid,
          TunnelEvent.error m "openai_error"] ∧
      (handlePrompt cfg hist callSid voicePrompt model execTool).modelCalls
        = [firstCompletionParams cfg (hist ++ [userTurn voicePrompt])] ∧
      (handlePrompt cfg hist callSid voicePrompt model execTool).closed = false) ∧
    (∀ msg u tcs m2,
      model (firstCompletionParams cfg (hist ++ [userTurn voicePrompt]))
        = ModelResult.ok msg u →
      msg.tool_calls = some tcs →
      model (secondCompletionParams cfg
        (historyAfterTools (hist ++ [userTurn voicePrompt]) msg execTool))
        = ModelResult.err m2 →
      (handlePrompt cfg hist callSid voicePrompt model execTool).history
        = historyAfterTools (hist ++ [userTurn voicePrompt]) msg execTool ∧
      (handlePrompt cfg hist callSid voicePrompt model execTool).callMessages
        = [{ token := some apologyText, last := true }] ∧
      TunnelEvent.error m2 "openai_error"
        ∈ (handlePrompt cfg hist callSid voicePrompt model execTool).tunnelEvents ∧
      (handlePrompt cfg hist callSid voicePrompt model execTool).closed = false) := by
  constructor
  · intro m hm
    refine ⟨?_, ?_, ?_, ?_, ?_⟩ <;> simp [handlePrompt, hm]
  · intro msg u tcs m2 hm htc hm2
    refine ⟨?_, ?_, ?_, ?_⟩ <;> simp [handlePrompt, hm, htc, hm2]

/-- Witness for the amended C4 theorem: the always-throwing oracle
yields the apology frame. -/
theorem model_error_apology_policy_witness :
    (handlePrompt cfgNoPrompt [] none "hi" modelAlwaysErr execStub).callMessages
      = [{ token := some apologyText, last := true }] :=
  ((model_error_apology_policy cfgNoPrompt [] none "hi" modelAlwaysErr execStub).1
    "boom" rfl).2.1

/-- Claim C5: a model response carrying tool invocations leads to
exactly one additional model invocation, however many tools were
requested: the invocation list is the first call followed by one
re-invocation; the model tool-invocation turn is appended before the
per-tool result turns, each a tool turn correlated to its invocation id;
and the re-invocation text content is the final answer sent on the call
connection. -/
theorem tool_round_trip_once (cfg : StudentConfig) (hist : List ChatTurn)
    (callSid : Option String) (voicePrompt : String)
    (model : CompletionParams → ModelResult) (execTool : String → String → String)
    (msg : ModelMessage) (u : Usage) (tcs : List ToolCall)
    (h1 : model (firstCompletionParams cfg (hist ++ [userTurn voicePrompt]))
      = ModelResult.ok msg u)
    (h2 : msg.tool_calls = some tcs) :
    (handlePrompt cfg hist callSid voicePrompt model execTool).modelCalls
      = [firstCompletionParams cfg (hist ++ [userTurn voicePrompt]),
        secondCompletionParams cfg
          (historyAfterTools (hist ++ [userTurn voicePrompt]) msg execTool)] ∧
    historyAfterTools (hist ++ [userTurn voicePrompt]) msg execTool
      = (hist ++ [userTurn voicePrompt])
        ++ assistantToolTurn msg :: tcs.map (toolResultTurn execTool) ∧
    (∀ tc ∈ tcs, (toolResultTurn execTool tc).role = Role.tool ∧
      (toolResultTurn execTool tc).tool_call_id = some tc.id) ∧
    (∀ msg2 u2,
      model (secondCompletionParams cfg
        (historyAfterTools (hist ++ [userTurn voicePrompt]) msg execTool))
        = ModelResult.ok msg2 u2 →
      (handlePrompt cfg hist callSid voicePrompt model execTool).callMessages
        = [{ token := msg2.content, last := true }] ∧
      (handlePrompt cfg hist callSid voicePrompt model execTool).history
        = historyAfterTools (hist ++ [userTurn voicePrompt]) msg execTool
          ++ [assistantTextTurn msg2.content]) := by
  refine ⟨?_, by simp [historyAfterTools, h2], fun tc _ => ⟨rfl, rfl⟩, ?_⟩
  · cases hm2 : model (secondCompletionParams cfg
        (historyAfterTools (hist ++ [userTurn voicePrompt]) msg execTool)) with
    | err m2 => simp [handlePrompt, h1, h2, hm2]
    | ok msg2 u2 => simp [handlePrompt, h1, h2, hm2]
  · intro msg2 u2 hm2
    constructor <;> simp [handlePrompt, h1, h2, hm2]

/-- Witness for C5 at a concrete two-tool run. -/
theorem tool_round_trip_once_witness :
    (handlePrompt cfgNoPrompt [] none "hi" modelTwoToolsThenText execStub).modelCalls
      = [firstCompletionParams cfgNoPrompt ([] ++ [userTurn "hi"]),
        secondCompletionParams cfgNoPrompt
          (historyAfterTools ([] ++ [userTurn "hi"]) msgTwoTools execStub)] :=
  (tool_round_trip_once cfgNoPrompt [] none "hi" modelTwoToolsThenText execStub
    msgTwoTools { prompt_tokens := 3, completion_tokens := 4, total_tokens := 7 }
    [tcOne, tcTwo] rfl rfl).1

/-- Claim C6: under a tenant configuration with zero declared tools the
turn-resolution algorithm performs exactly one model invocation, every
issued call attaches no tool definitions and no tool-choice parameter,
and the model text content is forwarded verbatim as the token of the
single outbound text frame.  The hypothesis hAPI is the external model
collaborator contract: a call issued without tool definitions returns no
tool invocations. -/
theorem zero_tools_single_invocation (cfg : StudentConfig) (hist : List ChatTurn)
    (callSid : Option String) (voicePrompt : String)
    (model : CompletionParams → ModelResult) (execTool : String → String → String)
    (hTools : cfg.tools = [])
    (hAPI : ∀ p msg u, p.tools = none → model p = ModelResult.ok msg u →
      msg.tool_calls = none) :
    (handlePrompt cfg hist callSid voicePrompt model execTool).modelCalls.length = 1 ∧
    (∀ p ∈ (handlePrompt cfg hist callSid voicePrompt model execTool).modelCalls,
      p.tools = none ∧ p.tool_choice = none) ∧
    (∀ msg u,
      model (firstCompletionParams cfg (hist ++ [userTurn voicePrompt]))
        = ModelResult.ok msg u →
      (handlePrompt cfg hist callSid voicePrompt model execTool).callMessages
        = [{ token := msg.content, last := true }]) := by
  have hp1 : (firstCompletionParams cfg (hist ++ [userTurn voicePrompt])).tools = none := by
    simp [firstCompletionParams, hTools]
  have hc1 : (firstCompletionParams cfg
      (hist ++ [userTurn voicePrompt])).tool_choice = none := by
    simp [firstCompletionParams, hTools]
  cases hm : model (firstCompletionParams cfg (hist ++ [userTurn voicePrompt])) with
  | err m =>
    refine ⟨by simp [handlePrompt, hm], ?_, ?_⟩
    · intro p hp
      simp [handlePrompt, hm] at hp
      subst hp
      exact ⟨hp1, hc1⟩
    · intro msg u hmu
      exact ModelResult.noConfusion hmu
  | ok msg u =>
    have htc : msg.tool_calls = none := hAPI _ msg u hp1 hm
    refine ⟨by simp [handlePrompt, hm, htc], ?_, ?_⟩
    · intro p hp
      simp [handlePrompt, hm, htc] at hp
      subst hp
      exact ⟨hp1, hc1⟩
    · intro msg2 u2 hmu
      injection hmu with hmsg hu
      subst hmsg
      simp [handlePrompt, hm, htc]

/-- Witness for C6: a no-tools tenant with a plain-text oracle performs
one invocation. -/
theorem zero_tools_single_invocation_witness :
    (handlePrompt cfgNoTools [] none "hi" modelPlainText execStub).modelCalls.length = 1 :=
  (zero_tools_single_invocation cfgNoTools [] none "hi" modelPlainText execStub rfl
    (fun p msg u hpt h => by cases h; rfl)).1

end WS
